import Mathlib

/-!
Shallow embedding of `src/api_gateway.py`: a FastAPI reverse proxy that
validates an `X-API-Key` header against a process-wide set of keys loaded
from Google Secret Manager, and forwards authenticated requests to a vLLM
upstream server.

Modelling conventions:
* Header names are stored lowercased, as the ASGI layer (Starlette) exposes
  them to the Python code (`dict(request.headers)` has lowercase keys).
* The Python `set` of keys is modelled as a `List String`; only membership
  matters for validation, so duplicates are irrelevant.
* The external Secret Manager fetch+decode is a parameter
  `backend : Except String (List (String × String))` (name → key mapping, or
  a failure message); the upstream HTTP server is a parameter
  `upstream : OutboundRequest → Except String UpstreamResponse`
  (`Except.error` models `httpx.RequestError`, including timeouts).
* Request paths are kept with their leading slash; the catch-all route
  template strips it and the handler re-adds it, so the forwarded URL is
  `VLLM_BASE_URL ++ path`.
-/

namespace ApiGateway

/-- The HTTP methods declared on the catch-all route in `api_gateway.py`
(`methods=["GET", "POST", "PUT", "DELETE", "PATCH"]`). -/
inductive Method where
  | get
  | post
  | put
  | delete
  | patch
  deriving DecidableEq, Repr

/-- An inbound HTTP request as the gateway sees it: method, URL path
(with leading slash), query parameters, headers (lowercase names), body bytes. -/
structure InboundRequest where
  method : Method
  path : String
  query : List (String × String)
  headers : List (String × String)
  body : List Nat
  deriving DecidableEq, Repr

/-- The request the gateway issues to the vLLM upstream
(`client.request(method=..., url=..., content=..., headers=..., params=...)`). -/
structure OutboundRequest where
  method : Method
  url : String
  headers : List (String × String)
  params : List (String × String)
  body : List Nat
  deriving DecidableEq, Repr

/-- An upstream HTTP response: status, headers, and the body as the chunk
sequence in which it arrives on the wire. -/
structure UpstreamResponse where
  status : Nat
  headers : List (String × String)
  bodyChunks : List String
  deriving DecidableEq, Repr

/-- Response bodies the gateway can produce: the health JSON, the reload JSON,
a FastAPI `HTTPException` error JSON (`{"detail": ...}`), or a streamed body. -/
inductive RespBody where
  | healthJson (status service : String) (keysLoaded : Nat)
  | reloadJson (status : String) (keysLoaded : Nat) (message : String)
  | errorJson (detail : String)
  | streamed (chunks : List String)
  deriving DecidableEq, Repr

/-- A response returned to the caller. -/
structure GatewayResponse where
  status : Nat
  headers : List (String × String)
  body : RespBody
  deriving DecidableEq, Repr

/-- Configuration read from the environment: `VLLM_BASE_URL` and
`GCP_PROJECT` (`none` models an unset variable; `os.getenv` returns `None`). -/
structure GatewayConfig where
  vllmBaseUrl : String
  gcpProject : Option String
  deriving DecidableEq, Repr

/-- Outcome of the `validate_api_key` dependency: either the validated key, or
a raised `HTTPException` with status and detail. -/
inductive AuthOutcome where
  | allowed (key : String)
  | denied (status : Nat) (detail : String)
  deriving DecidableEq, Repr

/-- Case-sensitive lookup of a (lowercased) header name, as FastAPI's
`Header(None, alias="X-API-Key")` resolves the header: `none` when absent. -/
def getHeader (headers : List (String × String)) (name : String) : Option String :=
  (headers.find? (fun h => h.1 == name)).map Prod.snd

/-- `validate_api_key` (lines 100-129): rejects with 401 when the header is
absent or empty (Python `if not x_api_key` is true for both `None` and `""`),
rejects with 401 when the key is not in the valid set, returns the key otherwise. -/
def validate_api_key (validKeys : List String) (x_api_key : Option String) : AuthOutcome :=
  match x_api_key with
  | none =>
      AuthOutcome.denied 401 "Missing API key. Include X-API-Key header in your request."
  | some k =>
      if k.isEmpty then
        AuthOutcome.denied 401 "Missing API key. Include X-API-Key header in your request."
      else if k ∈ validKeys then
        AuthOutcome.allowed k
      else
        AuthOutcome.denied 401 "Invalid API key"

/-- `load_api_keys_from_secret_manager` (lines 36-72): when `GCP_PROJECT` is
falsy (unset or empty string) it returns the empty set without touching the
backend; otherwise it performs the fetch+decode (modelled by `backend`) and
keeps the values of the decoded name→key mapping (`set(keys_dict.values())`).
Any fetch/decode failure is logged and re-raised (`Except.error`). -/
def load_api_keys_from_secret_manager (gcpProject : Option String)
    (backend : Except String (List (String × String))) : Except String (List String) :=
  match gcpProject with
  | none => Except.ok []
  | some p =>
      if p.isEmpty then Except.ok []
      else backend.map (fun kv => kv.map Prod.snd)

/-- Which registered route serves a request. Starlette dispatches to the first
route whose path template and method both match, in registration order:
`@app.get("/health")`, `@app.get("/admin/reload-keys")`, then the catch-all
`@app.api_route("/{path:path}", methods=[GET, POST, PUT, DELETE, PATCH])`.
The two control routes accept only GET, so any other method on those paths
falls through to the catch-all. -/
inductive Route where
  | health
  | reloadKeys
  | proxy
  deriving DecidableEq, Repr

def routeRequest (m : Method) (path : String) : Route :=
  if m = Method.get ∧ path = "/health" then Route.health
  else if m = Method.get ∧ path = "/admin/reload-keys" then Route.reloadKeys
  else Route.proxy

/-- Header/URL preparation in `proxy_to_vllm` (lines 180-185, 193-199):
`url = f"{VLLM_BASE_URL}/{path}"` (the route template stripped the leading
slash, re-added here, so the result is base ++ inbound path); headers are
`dict(request.headers)` with `x-api-key` then `host` popped; method, body and
query params are forwarded as received. -/
def buildOutbound (baseUrl : String) (req : InboundRequest) : OutboundRequest :=
  { method := req.method
    url := baseUrl ++ req.path
    headers := ((req.headers.filter (fun h => !(h.1 == "x-api-key"))).filter
      (fun h => !(h.1 == "host")))
    params := req.query
    body := req.body }

/-- `health_check` (lines 132-139): unauthenticated, returns the key count. -/
def health_check (validKeys : List String) : GatewayResponse :=
  { status := 200
    headers := []
    body := RespBody.healthJson "healthy" "vllm-api-gateway" validKeys.length }

/-- `reload_keys` (lines 142-160), after the auth dependency has succeeded:
re-runs the Secret Manager load; on success the global key set is replaced and
a success JSON (with the new count) is returned; on failure a 500 is raised and
the assignment never happens, so the key set is returned unchanged. Returns
(response, resulting key set). -/
def reload_keys (cfg : GatewayConfig) (backend : Except String (List (String × String)))
    (validKeys : List String) : GatewayResponse × List String :=
  match load_api_keys_from_secret_manager cfg.gcpProject backend with
  | Except.ok newKeys =>
      ({ status := 200
         headers := []
         body := RespBody.reloadJson "success" newKeys.length
           "API keys reloaded from Secret Manager" }, newKeys)
  | Except.error e =>
      ({ status := 500
         headers := []
         body := RespBody.errorJson ("Failed to reload keys: " ++ e) }, validKeys)

/-- `proxy_to_vllm` (lines 163-214), after the auth dependency has succeeded:
builds the outbound request and issues it once (no retry loop in the source).
On success the upstream status and headers are relayed; `client.request` has
already read the complete body, so `response.aiter_bytes()` replays the
buffered content (modelled as the single joined chunk). On `httpx.RequestError`
a 503 is raised. Returns (response, list of upstream calls made). -/
def proxy_to_vllm (cfg : GatewayConfig)
    (upstream : OutboundRequest → Except String UpstreamResponse)
    (req : InboundRequest) : GatewayResponse × List OutboundRequest :=
  let out := buildOutbound cfg.vllmBaseUrl req
  match upstream out with
  | Except.ok resp =>
      ({ status := resp.status
         headers := resp.headers
         body := RespBody.streamed [String.join resp.bodyChunks] }, [out])
  | Except.error e =>
      ({ status := 503
         headers := []
         body := RespBody.errorJson ("vLLM server unavailable: " ++ e) }, [out])

/-- Result of handling one request: the caller-visible response, the upstream
calls made while handling it, and the key set after handling (reload may
replace it). -/
structure HandleResult where
  response : GatewayResponse
  upstreamCalls : List OutboundRequest
  finalKeys : List String
  deriving DecidableEq, Repr

/-- One full request through the app: route dispatch, then (for the reload and
proxy routes) the `Depends(validate_api_key)` gate — a raised `HTTPException`
short-circuits before the handler body runs, so no upstream call is made and
the key set is untouched — then the handler. -/
def handleRequest (cfg : GatewayConfig)
    (upstream : OutboundRequest → Except String UpstreamResponse)
    (backend : Except String (List (String × String)))
    (validKeys : List String) (req : InboundRequest) : HandleResult :=
  match routeRequest req.method req.path with
  | Route.health =>
      { response := health_check validKeys
        upstreamCalls := []
        finalKeys := validKeys }
  | Route.reloadKeys =>
      match validate_api_key validKeys (getHeader req.headers "x-api-key") with
      | AuthOutcome.denied s d =>
          { response := { status := s, headers := [], body := RespBody.errorJson d }
            upstreamCalls := []
            finalKeys := validKeys }
      | AuthOutcome.allowed _ =>
          let r := reload_keys cfg backend validKeys
          { response := r.1
            upstreamCalls := []
            finalKeys := r.2 }
  | Route.proxy =>
      match validate_api_key validKeys (getHeader req.headers "x-api-key") with
      | AuthOutcome.denied s d =>
          { response := { status := s, headers := [], body := RespBody.errorJson d }
            upstreamCalls := []
            finalKeys := validKeys }
      | AuthOutcome.allowed _ =>
          let r := proxy_to_vllm cfg upstream req
          { response := r.1
            upstreamCalls := r.2
            finalKeys := validKeys }

/-!
Event-level model of the proxy success path (lines 191-207), refining the
body relay. `await client.request(...)` is httpx's non-streaming API: it reads
the entire upstream response body into memory before the call returns (the
streaming API, `client.stream(...)`/`send(..., stream=True)`, is not used; the
`async with` block even closes the client before the returned
`StreamingResponse` is iterated, which only works because the body is already
buffered). `response.aiter_bytes()` then replays the buffered content, and the
`StreamingResponse` emits it to the caller.
-/

/-- Byte-flow events on the proxy path: a chunk arriving from the upstream
server, or a chunk emitted to the caller. -/
inductive StreamEvent where
  | upstreamRead (chunk : String)
  | emitToCaller (chunk : String)
  deriving DecidableEq, Repr

def isEmit : StreamEvent → Bool
  | StreamEvent.emitToCaller _ => true
  | StreamEvent.upstreamRead _ => false

def isRead : StreamEvent → Bool
  | StreamEvent.upstreamRead _ => true
  | StreamEvent.emitToCaller _ => false

/-- The chronological byte-flow trace produced by lines 191-207 for an
upstream body arriving as `chunks`: `client.request` reads every chunk, and
only then does the `StreamingResponse` emit the buffered content. -/
def proxyBodyTrace (chunks : List String) : List StreamEvent :=
  chunks.map StreamEvent.upstreamRead ++ [StreamEvent.emitToCaller (String.join chunks)]

/-- How many upstream chunks have been read when the first byte is emitted to
the caller: the number of events strictly before the first emit event. -/
def readsBeforeFirstEmit (t : List StreamEvent) : Nat :=
  (t.takeWhile isRead).length

/-! Concrete fixtures used to instantiate the theorems below. -/

def demoCfg : GatewayConfig :=
  { vllmBaseUrl := "http://localhost:8080", gcpProject := some "my-project" }

def demoCfgNoProject : GatewayConfig :=
  { vllmBaseUrl := "http://localhost:8080", gcpProject := none }

def demoUpstreamOk : OutboundRequest → Except String UpstreamResponse :=
  fun _ => Except.ok
    { status := 200
      headers := [("content-type", "application/json")]
      bodyChunks := ["chunk-one", "chunk-two"] }

def demoUpstreamDown : OutboundRequest → Except String UpstreamResponse :=
  fun _ => Except.error "connection refused"

def demoBackendOk : Except String (List (String × String)) :=
  Except.ok [("service-a", "sk-bbb")]

def demoBackendDown : Except String (List (String × String)) :=
  Except.error "secret manager unreachable"

/-! Helper lemmas shared by the claim theorems. -/

theorem validate_api_key_allowed (validKeys : List String) (k : String)
    (hne : k.isEmpty = false) (hmem : k ∈ validKeys) :
    validate_api_key validKeys (some k) = AuthOutcome.allowed k := by
  unfold validate_api_key
  simp [hne, hmem]

theorem validate_api_key_denied_status (validKeys : List String) (x : Option String)
    (h : ∀ k, x = some k → k ∈ validKeys → k.isEmpty = true) :
    ∃ d, validate_api_key validKeys x = AuthOutcome.denied 401 d := by
  match x with
  | none =>
    exact ⟨"Missing API key. Include X-API-Key header in your request.", rfl⟩
  | some k =>
    by_cases he : k.isEmpty
    · refine ⟨"Missing API key. Include X-API-Key header in your request.", ?_⟩
      unfold validate_api_key
      simp [he]
    · have hk : k ∉ validKeys := fun hmem => he (h k rfl hmem)
      refine ⟨"Invalid API key", ?_⟩
      unfold validate_api_key
      simp [he, hk]

/-- C1: the spec claims the gateway relays large upstream bodies incrementally,
never requiring the whole body to be materialized before the first byte reaches
the caller. The code does the opposite: `await client.request(...)` (httpx
non-streaming API) reads every upstream chunk before returning, and only then
does the `StreamingResponse` emit — so by the time the first byte reaches the
caller, all `chunks.length` upstream chunks have been read, and the single
emitted piece is the fully joined body. -/
theorem C1_full_body_read_before_first_emit (chunks : List String) :
    readsBeforeFirstEmit (proxyBodyTrace chunks) = chunks.length ∧
    (proxyBodyTrace chunks).filter isEmit =
      [StreamEvent.emitToCaller (String.join chunks)] := by
  constructor
  · simp [readsBeforeFirstEmit, proxyBodyTrace, isRead, isEmit]
  · simp [proxyBodyTrace, isRead, isEmit]

/-- C2 counterexample: with cache `{"sk-aaa"}`, a request lacking the
credential header and a request with the unknown key `sk-zzz` both get
status 401, but their bodies differ (`Missing API key...` vs `Invalid API
key`), so the claim that the two responses have identical status AND
identical body is false. -/
theorem C2_counterexample :
    (handleRequest demoCfg demoUpstreamOk demoBackendOk ["sk-aaa"]
      { method := Method.post, path := "/v1/chat/completions", query := [],
        headers := [("content-type", "application/json")],
        body := [123] }).response.status =
    (handleRequest demoCfg demoUpstreamOk demoBackendOk ["sk-aaa"]
      { method := Method.post, path := "/v1/chat/completions", query := [],
        headers := [("x-api-key", "sk-zzz")],
        body := [123] }).response.status ∧
    ¬ ((handleRequest demoCfg demoUpstreamOk demoBackendOk ["sk-aaa"]
      { method := Method.post, path := "/v1/chat/completions", query := [],
        headers := [("content-type", "application/json")],
        body := [123] }).response.body =
    (handleRequest demoCfg demoUpstreamOk demoBackendOk ["sk-aaa"]
      { method := Method.post, path := "/v1/chat/completions", query := [],
        headers := [("x-api-key", "sk-zzz")],
        body := [123] }).response.body) := by
  decide

/-- C2 amended: for any pair of non-liveness requests, one missing the
credential header and one carrying a non-empty key not in the cache, both
responses have status 401, but the bodies are the two distinct fixed error
JSONs — the failure modes are distinguishable from the response body. -/
theorem C2_same_status_distinct_bodies (cfg : GatewayConfig)
    (up : OutboundRequest → Except String UpstreamResponse)
    (bk : Except String (List (String × String)))
    (keys : List String) (req1 req2 : InboundRequest) (k : String)
    (h1 : getHeader req1.headers "x-api-key" = none)
    (h2 : getHeader req2.headers "x-api-key" = some k)
    (hne : k.isEmpty = false) (hmem : k ∉ keys)
    (hr1 : routeRequest req1.method req1.path ≠ Route.health)
    (hr2 : routeRequest req2.method req2.path ≠ Route.health) :
    (handleRequest cfg up bk keys req1).response.status = 401 ∧
    (handleRequest cfg up bk keys req2).response.status = 401 ∧
    (handleRequest cfg up bk keys req1).response.body =
      RespBody.errorJson "Missing API key. Include X-API-Key header in your request." ∧
    (handleRequest cfg up bk keys req2).response.body =
      RespBody.errorJson "Invalid API key" ∧
    (handleRequest cfg up bk keys req1).response.body ≠
      (handleRequest cfg up bk keys req2).response.body := by
  have hv1 : validate_api_key keys (getHeader req1.headers "x-api-key") =
      AuthOutcome.denied 401 "Missing API key. Include X-API-Key header in your request." := by
    rw [h1]; rfl
  have hv2 : validate_api_key keys (getHeader req2.headers "x-api-key") =
      AuthOutcome.denied 401 "Invalid API key" := by
    rw [h2]; unfold validate_api_key; simp [hne, hmem]
  unfold handleRequest
  rcases hroute1 : routeRequest req1.method req1.path with _ | _ | _ <;>
    rcases hroute2 : routeRequest req2.method req2.path with _ | _ | _ <;>
      first
        | exact absurd hroute1 hr1
        | exact absurd hroute2 hr2
        | (rw [hv1, hv2]
           refine ⟨rfl, rfl, rfl, rfl, ?_⟩
           show RespBody.errorJson
               "Missing API key. Include X-API-Key header in your request." ≠
             RespBody.errorJson "Invalid API key"
           decide)

/-- C2 witness: the amended theorem instantiated at the concrete pair from the
counterexample. -/
theorem C2_same_status_distinct_bodies_witness :
    (handleRequest demoCfg demoUpstreamOk demoBackendOk ["sk-aaa"]
      { method := Method.post, path := "/v1/chat/completions", query := [],
        headers := [("content-type", "application/json")],
        body := [123] }).response.status = 401 ∧
    (handleRequest demoCfg demoUpstreamOk demoBackendOk ["sk-aaa"]
      { method := Method.post, path := "/v1/chat/completions", query := [],
        headers := [("x-api-key", "sk-zzz")],
        body := [123] }).response.status = 401 ∧
    (handleRequest demoCfg demoUpstreamOk demoBackendOk ["sk-aaa"]
      { method := Method.post, path := "/v1/chat/completions", query := [],
        headers := [("content-type", "application/json")],
        body := [123] }).response.body =
      RespBody.errorJson "Missing API key. Include X-API-Key header in your request." ∧
    (handleRequest demoCfg demoUpstreamOk demoBackendOk ["sk-aaa"]
      { method := Method.post, path := "/v1/chat/completions", query := [],
        headers := [("x-api-key", "sk-zzz")],
        body := [123] }).response.body =
      RespBody.errorJson "Invalid API key" ∧
    (handleRequest demoCfg demoUpstreamOk demoBackendOk ["sk-aaa"]
      { method := Method.post, path := "/v1/chat/completions", query := [],
        headers := [("content-type", "application/json")],
        body := [123] }).response.body ≠
      (handleRequest demoCfg demoUpstreamOk demoBackendOk ["sk-aaa"]
        { method := Method.post, path := "/v1/chat/completions", query := [],
          headers := [("x-api-key", "sk-zzz")],
          body := [123] }).response.body :=
  C2_same_status_distinct_bodies demoCfg demoUpstreamOk demoBackendOk ["sk-aaa"]
    _ _ "sk-zzz" (by decide) (by decide) (by decide) (by decide) (by decide) (by decide)

/-- A typical authenticated inference request, carrying extra headers, a query
string and a body, used to instantiate the forwarding theorems. -/
def demoProxyReq : InboundRequest :=
  { method := Method.post
    path := "/v1/chat/completions"
    query := [("stream", "true")]
    headers := [("host", "gw.example.com"), ("content-type", "application/json"),
                ("x-api-key", "sk-aaa"), ("accept", "text/event-stream")]
    body := [104, 105] }

/-- C3: for an authenticated request that reaches the proxy route, exactly one
upstream request is issued; it keeps the inbound method, query parameters and
body, targets the upstream base address joined with the inbound path, and its
headers are exactly the inbound headers with the credential header and the
host header removed — in particular the credential header never appears in the
outbound request. -/
theorem C3_outbound_strips_only_credential_and_host (cfg : GatewayConfig)
    (up : OutboundRequest → Except String UpstreamResponse)
    (bk : Except String (List (String × String)))
    (keys : List String) (req : InboundRequest) (k : String)
    (hget : getHeader req.headers "x-api-key" = some k)
    (hne : k.isEmpty = false) (hmem : k ∈ keys)
    (hroute : routeRequest req.method req.path = Route.proxy) :
    (handleRequest cfg up bk keys req).upstreamCalls =
      [buildOutbound cfg.vllmBaseUrl req] ∧
    (buildOutbound cfg.vllmBaseUrl req).method = req.method ∧
    (buildOutbound cfg.vllmBaseUrl req).url = cfg.vllmBaseUrl ++ req.path ∧
    (buildOutbound cfg.vllmBaseUrl req).params = req.query ∧
    (buildOutbound cfg.vllmBaseUrl req).body = req.body ∧
    (buildOutbound cfg.vllmBaseUrl req).headers =
      req.headers.filter (fun h => !(h.1 == "host") && !(h.1 == "x-api-key")) ∧
    (buildOutbound cfg.vllmBaseUrl req).headers.all
      (fun h => !(h.1 == "x-api-key")) = true := by
  have hv := validate_api_key_allowed keys k hne hmem
  have hcalls : (handleRequest cfg up bk keys req).upstreamCalls =
      [buildOutbound cfg.vllmBaseUrl req] := by
    unfold handleRequest
    rw [hroute, hget, hv]
    unfold proxy_to_vllm
    cases hup : up (buildOutbound cfg.vllmBaseUrl req) <;> simp [hup]
  refine ⟨hcalls, rfl, rfl, rfl, rfl, ?_, ?_⟩
  · show ((req.headers.filter (fun h => !(h.1 == "x-api-key"))).filter
        (fun h => !(h.1 == "host"))) =
      req.headers.filter (fun h => !(h.1 == "host") && !(h.1 == "x-api-key"))
    exact List.filter_filter _ _
  · rw [List.all_eq_true]
    intro x hx
    have hx2 : x ∈ ((req.headers.filter (fun h => !(h.1 == "x-api-key"))).filter
        (fun h => !(h.1 == "host"))) := hx
    exact (List.mem_filter.mp (List.mem_filter.mp hx2).1).2

/-- C3 witness: the forwarding theorem instantiated at a concrete authenticated
request carrying host, content-type, credential and accept headers. -/
theorem C3_outbound_strips_only_credential_and_host_witness :
    (handleRequest demoCfg demoUpstreamOk demoBackendOk ["sk-aaa"]
        demoProxyReq).upstreamCalls =
      [buildOutbound demoCfg.vllmBaseUrl demoProxyReq] ∧
    (buildOutbound demoCfg.vllmBaseUrl demoProxyReq).method = demoProxyReq.method ∧
    (buildOutbound demoCfg.vllmBaseUrl demoProxyReq).url =
      demoCfg.vllmBaseUrl ++ demoProxyReq.path ∧
    (buildOutbound demoCfg.vllmBaseUrl demoProxyReq).params = demoProxyReq.query ∧
    (buildOutbound demoCfg.vllmBaseUrl demoProxyReq).body = demoProxyReq.body ∧
    (buildOutbound demoCfg.vllmBaseUrl demoProxyReq).headers =
      demoProxyReq.headers.filter (fun h => !(h.1 == "host") && !(h.1 == "x-api-key")) ∧
    (buildOutbound demoCfg.vllmBaseUrl demoProxyReq).headers.all
      (fun h => !(h.1 == "x-api-key")) = true :=
  C3_outbound_strips_only_credential_and_host demoCfg demoUpstreamOk demoBackendOk
    ["sk-aaa"] demoProxyReq "sk-aaa" (by decide) (by decide) (by decide) (by decide)

/-- C4 counterexample: the claim says a request to a reserved path is handled
by the control endpoint regardless of HTTP method, but the control routes are
registered for GET only: a POST to the liveness path falls through to the
catch-all route and is proxied upstream (here with a valid key, producing an
upstream call). -/
theorem C4_counterexample :
    routeRequest Method.post "/health" = Route.proxy ∧
    (handleRequest demoCfg demoUpstreamOk demoBackendOk ["sk-aaa"]
      { method := Method.post, path := "/health", query := [],
        headers := [("x-api-key", "sk-aaa")], body := [] }).upstreamCalls ≠ [] := by
  decide

/-- C4 amended: a request is handled by the liveness endpoint exactly when it
is a GET for the liveness path, by the reload endpoint exactly when it is a
GET for the reload path, and is proxied (subject to authentication) in every
other case — including non-GET methods on the two reserved paths. -/
theorem C4_reserved_paths_routing (m : Method) (p : String) :
    (routeRequest m p = Route.health ↔ m = Method.get ∧ p = "/health") ∧
    (routeRequest m p = Route.reloadKeys ↔
      m = Method.get ∧ p = "/admin/reload-keys") ∧
    (routeRequest m p = Route.proxy ↔
      ¬ (m = Method.get ∧ (p = "/health" ∨ p = "/admin/reload-keys"))) := by
  unfold routeRequest
  split_ifs with h1 h2
  · obtain ⟨hm, hp⟩ := h1
    subst hm; subst hp
    decide
  · obtain ⟨hm, hp⟩ := h2
    subst hm; subst hp
    decide
  · refine ⟨⟨fun h => absurd h (by decide), fun h => absurd h h1⟩,
            ⟨fun h => absurd h (by decide), fun h => absurd h h2⟩,
            ⟨fun _ => ?_, fun _ => rfl⟩⟩
    rintro ⟨hm, hp | hp⟩
    · exact h1 ⟨hm, hp⟩
    · exact h2 ⟨hm, hp⟩

/-- Helper: a request can only be served by the health endpoint when its path
is the liveness path. -/
theorem routeRequest_health_path (m : Method) (p : String)
    (h : routeRequest m p = Route.health) : p = "/health" := by
  by_cases h1 : m = Method.get ∧ p = "/health"
  · exact h1.2
  · exfalso
    unfold routeRequest at h
    rw [if_neg h1] at h
    by_cases h2 : m = Method.get ∧ p = "/admin/reload-keys"
    · rw [if_pos h2] at h
      exact absurd h (by decide)
    · rw [if_neg h2] at h
      exact absurd h (by decide)

/-- C5: when the Secret Manager fetch/decode fails, an authenticated reload
request gets a 500 with the failure detail, makes no upstream call, and leaves
the credential cache exactly as it was (the assignment to the global key set
never executes, so the previously loaded credentials stay valid). -/
theorem C5_failed_reload_preserves_cache (cfg : GatewayConfig)
    (up : OutboundRequest → Except String UpstreamResponse)
    (bk : Except String (List (String × String)))
    (keys : List String) (req : InboundRequest) (k e : String)
    (hroute : routeRequest req.method req.path = Route.reloadKeys)
    (hget : getHeader req.headers "x-api-key" = some k)
    (hne : k.isEmpty = false) (hmem : k ∈ keys)
    (hfail : load_api_keys_from_secret_manager cfg.gcpProject bk = Except.error e) :
    (handleRequest cfg up bk keys req).response.status = 500 ∧
    (handleRequest cfg up bk keys req).response.body =
      RespBody.errorJson ("Failed to reload keys: " ++ e) ∧
    (handleRequest cfg up bk keys req).finalKeys = keys ∧
    (handleRequest cfg up bk keys req).upstreamCalls = [] := by
  have hv := validate_api_key_allowed keys k hne hmem
  unfold handleRequest
  rw [hroute, hget, hv]
  simp [reload_keys, hfail]

/-- C5 witness: reload with a valid key while the secret backend is down. -/
theorem C5_failed_reload_preserves_cache_witness :
    (handleRequest demoCfg demoUpstreamOk demoBackendDown ["sk-aaa"]
      { method := Method.get, path := "/admin/reload-keys", query := [],
        headers := [("x-api-key", "sk-aaa")], body := [] }).response.status = 500 ∧
    (handleRequest demoCfg demoUpstreamOk demoBackendDown ["sk-aaa"]
      { method := Method.get, path := "/admin/reload-keys", query := [],
        headers := [("x-api-key", "sk-aaa")], body := [] }).response.body =
      RespBody.errorJson ("Failed to reload keys: " ++ "secret manager unreachable") ∧
    (handleRequest demoCfg demoUpstreamOk demoBackendDown ["sk-aaa"]
      { method := Method.get, path := "/admin/reload-keys", query := [],
        headers := [("x-api-key", "sk-aaa")], body := [] }).finalKeys = ["sk-aaa"] ∧
    (handleRequest demoCfg demoUpstreamOk demoBackendDown ["sk-aaa"]
      { method := Method.get, path := "/admin/reload-keys", query := [],
        headers := [("x-api-key", "sk-aaa")], body := [] }).upstreamCalls = [] :=
  C5_failed_reload_preserves_cache demoCfg demoUpstreamOk demoBackendDown ["sk-aaa"]
    _ "sk-aaa" "secret manager unreachable"
    (by decide) (by decide) (by decide) (by decide) rfl

/-- C6 counterexample: with cache `{"sk-aaa"}`, a GET to the liveness path
carrying the unknown key `sk-zzz` is answered by the unauthenticated health
endpoint with status 200, not 401 — so the claim, which quantifies over every
request with a non-member credential, is false as stated. -/
theorem C6_counterexample :
    getHeader [("x-api-key", "sk-zzz")] "x-api-key" = some "sk-zzz" ∧
    "sk-zzz" ∉ ["sk-aaa"] ∧
    (handleRequest demoCfg demoUpstreamOk demoBackendOk ["sk-aaa"]
      { method := Method.get, path := "/health", query := [],
        headers := [("x-api-key", "sk-zzz")], body := [] }).response.status = 200 ∧
    ¬ (handleRequest demoCfg demoUpstreamOk demoBackendOk ["sk-aaa"]
      { method := Method.get, path := "/health", query := [],
        headers := [("x-api-key", "sk-zzz")], body := [] }).response.status = 401 := by
  decide

/-- C6 amended: every request not served by the liveness endpoint whose
credential header value is not in the cache gets a 401, no upstream call is
made, and the cache is untouched; requests served by the unauthenticated
liveness endpoint are answered regardless of the header. -/
theorem C6_invalid_key_unauthorized_no_upstream (cfg : GatewayConfig)
    (up : OutboundRequest → Except String UpstreamResponse)
    (bk : Except String (List (String × String)))
    (keys : List String) (req : InboundRequest) (k : String)
    (hget : getHeader req.headers "x-api-key" = some k)
    (hmem : k ∉ keys)
    (hroute : routeRequest req.method req.path ≠ Route.health) :
    (handleRequest cfg up bk keys req).response.status = 401 ∧
    (handleRequest cfg up bk keys req).upstreamCalls = [] ∧
    (handleRequest cfg up bk keys req).finalKeys = keys := by
  have hside : ∀ k2, (some k : Option String) = some k2 → k2 ∈ keys →
      k2.isEmpty = true := by
    intro k2 hk2 hmem2
    cases hk2
    exact absurd hmem2 hmem
  obtain ⟨d, hv⟩ := validate_api_key_denied_status keys (some k) hside
  unfold handleRequest
  rw [hget, hv]
  cases hroute2 : routeRequest req.method req.path with
  | health => exact absurd hroute2 hroute
  | reloadKeys => exact ⟨rfl, rfl, rfl⟩
  | proxy => exact ⟨rfl, rfl, rfl⟩

/-- C6 witness: a POST to an inference path with an unknown key. -/
theorem C6_invalid_key_unauthorized_no_upstream_witness :
    (handleRequest demoCfg demoUpstreamOk demoBackendOk ["sk-aaa"]
      { method := Method.post, path := "/v1/models", query := [],
        headers := [("x-api-key", "sk-zzz")], body := [] }).response.status = 401 ∧
    (handleRequest demoCfg demoUpstreamOk demoBackendOk ["sk-aaa"]
      { method := Method.post, path := "/v1/models", query := [],
        headers := [("x-api-key", "sk-zzz")], body := [] }).upstreamCalls = [] ∧
    (handleRequest demoCfg demoUpstreamOk demoBackendOk ["sk-aaa"]
      { method := Method.post, path := "/v1/models", query := [],
        headers := [("x-api-key", "sk-zzz")], body := [] }).finalKeys = ["sk-aaa"] :=
  C6_invalid_key_unauthorized_no_upstream demoCfg demoUpstreamOk demoBackendOk
    ["sk-aaa"] _ "sk-zzz" (by decide) (by decide) (by decide)

/-- C7 counterexample: a GET to the liveness path with no credential header at
all is answered 200 by the unauthenticated health endpoint even though the
cache is non-empty — so the claim, which quantifies over every request without
the credential header, is false as stated. -/
theorem C7_counterexample :
    getHeader [("accept", "application/json")] "x-api-key" = none ∧
    (handleRequest demoCfg demoUpstreamOk demoBackendOk ["sk-aaa"]
      { method := Method.get, path := "/health", query := [],
        headers := [("accept", "application/json")], body := [] }).response.status
      = 200 ∧
    ¬ (handleRequest demoCfg demoUpstreamOk demoBackendOk ["sk-aaa"]
      { method := Method.get, path := "/health", query := [],
        headers := [("accept", "application/json")], body := [] }).response.status
      = 401 := by
  decide

/-- C7 amended: every request not served by the liveness endpoint that lacks
the credential header gets a 401 and triggers no upstream call, whatever the
cache contains. -/
theorem C7_missing_key_unauthorized (cfg : GatewayConfig)
    (up : OutboundRequest → Except String UpstreamResponse)
    (bk : Except String (List (String × String)))
    (keys : List String) (req : InboundRequest)
    (hget : getHeader req.headers "x-api-key" = none)
    (hroute : routeRequest req.method req.path ≠ Route.health) :
    (handleRequest cfg up bk keys req).response.status = 401 ∧
    (handleRequest cfg up bk keys req).upstreamCalls = [] ∧
    (handleRequest cfg up bk keys req).finalKeys = keys := by
  unfold handleRequest
  rw [hget]
  cases hroute2 : routeRequest req.method req.path with
  | health => exact absurd hroute2 hroute
  | reloadKeys => exact ⟨rfl, rfl, rfl⟩
  | proxy => exact ⟨rfl, rfl, rfl⟩

/-- C7 witness: a POST to an inference path with no credential header, while
the cache is non-empty. -/
theorem C7_missing_key_unauthorized_witness :
    (handleRequest demoCfg demoUpstreamOk demoBackendOk ["sk-aaa"]
      { method := Method.post, path := "/v1/completions", query := [],
        headers := [("content-type", "application/json")],
        body := [123] }).response.status = 401 ∧
    (handleRequest demoCfg demoUpstreamOk demoBackendOk ["sk-aaa"]
      { method := Method.post, path := "/v1/completions", query := [],
        headers := [("content-type", "application/json")],
        body := [123] }).upstreamCalls = [] ∧
    (handleRequest demoCfg demoUpstreamOk demoBackendOk ["sk-aaa"]
      { method := Method.post, path := "/v1/completions", query := [],
        headers := [("content-type", "application/json")],
        body := [123] }).finalKeys = ["sk-aaa"] :=
  C7_missing_key_unauthorized demoCfg demoUpstreamOk demoBackendOk ["sk-aaa"]
    _ (by decide) (by decide)

/-- C8: with the empty credential cache (the state at process start, before the
first successful load), every request whose path is not the liveness path is
rejected with 401 and no upstream call is made, whatever credential header it
carries: authentication never short-circuits to allow on an empty cache. -/
theorem C8_empty_cache_fail_closed (cfg : GatewayConfig)
    (up : OutboundRequest → Except String UpstreamResponse)
    (bk : Except String (List (String × String)))
    (req : InboundRequest)
    (hpath : req.path ≠ "/health") :
    (handleRequest cfg up bk [] req).response.status = 401 ∧
    (handleRequest cfg up bk [] req).upstreamCalls = [] := by
  obtain ⟨d, hv⟩ := validate_api_key_denied_status []
    (getHeader req.headers "x-api-key")
    (fun k2 _ hmem2 => absurd hmem2 (List.not_mem_nil k2))
  unfold handleRequest
  rw [hv]
  cases hroute2 : routeRequest req.method req.path with
  | health => exact absurd (routeRequest_health_path _ _ hroute2) hpath
  | reloadKeys => exact ⟨rfl, rfl⟩
  | proxy => exact ⟨rfl, rfl⟩

/-- C8 witness: an empty cache rejects even a plausible-looking key. -/
theorem C8_empty_cache_fail_closed_witness :
    (handleRequest demoCfg demoUpstreamOk demoBackendOk []
      { method := Method.post, path := "/v1/models", query := [],
        headers := [("x-api-key", "sk-aaa")], body := [] }).response.status = 401 ∧
    (handleRequest demoCfg demoUpstreamOk demoBackendOk []
      { method := Method.post, path := "/v1/models", query := [],
        headers := [("x-api-key", "sk-aaa")], body := [] }).upstreamCalls = [] :=
  C8_empty_cache_fail_closed demoCfg demoUpstreamOk demoBackendOk _ (by decide)

/-- C9: for an authenticated proxied request whose upstream call fails with a
connection error or timeout (`httpx.RequestError`), the caller gets a 503 with
the `vLLM server unavailable` detail, and exactly one upstream attempt was
made — the failure is not retried. -/
theorem C9_upstream_unavailable_503_single_attempt (cfg : GatewayConfig)
    (up : OutboundRequest → Except String UpstreamResponse)
    (bk : Except String (List (String × String)))
    (keys : List String) (req : InboundRequest) (k e : String)
    (hget : getHeader req.headers "x-api-key" = some k)
    (hne : k.isEmpty = false) (hmem : k ∈ keys)
    (hroute : routeRequest req.method req.path = Route.proxy)
    (hup : up (buildOutbound cfg.vllmBaseUrl req) = Except.error e) :
    (handleRequest cfg up bk keys req).response.status = 503 ∧
    (handleRequest cfg up bk keys req).response.body =
      RespBody.errorJson ("vLLM server unavailable: " ++ e) ∧
    (handleRequest cfg up bk keys req).upstreamCalls =
      [buildOutbound cfg.vllmBaseUrl req] := by
  have hv := validate_api_key_allowed keys k hne hmem
  unfold handleRequest
  rw [hroute, hget, hv]
  simp [proxy_to_vllm, hup]

/-- C9 witness: an authenticated inference request while the upstream server
refuses connections. -/
theorem C9_upstream_unavailable_503_single_attempt_witness :
    (handleRequest demoCfg demoUpstreamDown demoBackendOk ["sk-aaa"]
        demoProxyReq).response.status = 503 ∧
    (handleRequest demoCfg demoUpstreamDown demoBackendOk ["sk-aaa"]
        demoProxyReq).response.body =
      RespBody.errorJson ("vLLM server unavailable: " ++ "connection refused") ∧
    (handleRequest demoCfg demoUpstreamDown demoBackendOk ["sk-aaa"]
        demoProxyReq).upstreamCalls =
      [buildOutbound demoCfg.vllmBaseUrl demoProxyReq] :=
  C9_upstream_unavailable_503_single_attempt demoCfg demoUpstreamDown demoBackendOk
    ["sk-aaa"] demoProxyReq "sk-aaa" "connection refused"
    (by decide) (by decide) (by decide) (by decide) rfl

/-- C10: when `GCP_PROJECT` is unset, the key load does not fail — it returns
the empty set without consulting the backend — so an authenticated reload in
that configuration reports success (with zero keys loaded) and replaces the
cache with the empty set instead of leaving it untouched. -/
theorem C10_unset_project_reload_success_empties_cache (cfg : GatewayConfig)
    (up : OutboundRequest → Except String UpstreamResponse)
    (bk : Except String (List (String × String)))
    (keys : List String) (req : InboundRequest) (k : String)
    (hproj : cfg.gcpProject = none)
    (hroute : routeRequest req.method req.path = Route.reloadKeys)
    (hget : getHeader req.headers "x-api-key" = some k)
    (hne : k.isEmpty = false) (hmem : k ∈ keys) :
    load_api_keys_from_secret_manager cfg.gcpProject bk = Except.ok [] ∧
    (handleRequest cfg up bk keys req).response.status = 200 ∧
    (handleRequest cfg up bk keys req).response.body =
      RespBody.reloadJson "success" 0 "API keys reloaded from Secret Manager" ∧
    (handleRequest cfg up bk keys req).finalKeys = [] := by
  have hload : load_api_keys_from_secret_manager cfg.gcpProject bk =
      Except.ok [] := by
    rw [hproj]
    rfl
  have hv := validate_api_key_allowed keys k hne hmem
  refine ⟨hload, ?_, ?_, ?_⟩ <;>
    (unfold handleRequest
     rw [hroute, hget, hv]
     simp [reload_keys, hload])

/-- C10 witness: with `GCP_PROJECT` unset an authenticated reload succeeds and
empties the cache even while the secret backend is unreachable — the backend
is never consulted. -/
theorem C10_unset_project_reload_success_empties_cache_witness :
    load_api_keys_from_secret_manager demoCfgNoProject.gcpProject demoBackendDown =
      Except.ok [] ∧
    (handleRequest demoCfgNoProject demoUpstreamOk demoBackendDown ["sk-aaa"]
      { method := Method.get, path := "/admin/reload-keys", query := [],
        headers := [("x-api-key", "sk-aaa")], body := [] }).response.status = 200 ∧
    (handleRequest demoCfgNoProject demoUpstreamOk demoBackendDown ["sk-aaa"]
      { method := Method.get, path := "/admin/reload-keys", query := [],
        headers := [("x-api-key", "sk-aaa")], body := [] }).response.body =
      RespBody.reloadJson "success" 0 "API keys reloaded from Secret Manager" ∧
    (handleRequest demoCfgNoProject demoUpstreamOk demoBackendDown ["sk-aaa"]
      { method := Method.get, path := "/admin/reload-keys", query := [],
        headers := [("x-api-key", "sk-aaa")], body := [] }).finalKeys = [] :=
  C10_unset_project_reload_success_empties_cache demoCfgNoProject demoUpstreamOk
    demoBackendDown ["sk-aaa"] _ "sk-aaa" rfl
    (by decide) (by decide) (by decide) (by decide)

end ApiGateway
